import Mathlib

/-!
Verification of the content-production pipeline repository.

The route handler (POST, GET, deriveFromEnv, coerceBody, tr, coerceNumber)
is embedded from the source file directly.  The pipeline conductor and the
zod request schema live in library files that are not part of the provided
sources, so they are modelled from the specification where a claim needs
them; each such definition carries a doc comment saying so.
-/

set_option autoImplicit false

/-! ### Run events (data model shared by the UI, the transport and the conductor) -/

/-- Event status, from the RunLog interface in the status-feed component. -/
inductive Status where
  | info
  | progress
  | uploading
  | success
  | error
deriving DecidableEq, Repr

/-- One observable progress event of a run, from the RunLog interface:
id, status, title, optional detail, timestamp, optional structured metadata. -/
structure RunEvent where
  id : String
  status : Status
  title : String
  detail : Option String := none
  timestamp : String := ""
  meta : List (String × String) := []
deriving DecidableEq, Repr

/-! ### JavaScript value model for the untyped request body and env vars -/

/-- A JavaScript number: finite (as a rational), NaN, or an infinity. -/
inductive JSNum where
  | finite (q : ℚ)
  | nan
  | posInf
  | negInf
deriving DecidableEq, Repr

/-- An untyped JavaScript value as it can appear in a parsed JSON body. -/
inductive JSVal where
  | undefined
  | nullv
  | bool (b : Bool)
  | num (n : JSNum)
  | str (s : String)
  | arr (xs : List String)
deriving DecidableEq, Repr

/-- JavaScript truthiness, used by the Boolean(...) coercion in coerceBody. -/
def jsTruthy : JSVal → Bool
  | .undefined => false
  | .nullv => false
  | .bool b => b
  | .num (.finite q) => decide (q ≠ 0)
  | .num .nan => false
  | .num .posInf => true
  | .num .negInf => true
  | .str s => decide (s ≠ "")
  | .arr _ => true

/-- The JavaScript String.prototype.trim: drop whitespace from both ends. -/
def trimChars (cs : List Char) : List Char :=
  ((cs.dropWhile Char.isWhitespace).reverse.dropWhile Char.isWhitespace).reverse

/-- Trim as a string function. -/
def jsTrim (s : String) : String :=
  String.mk (trimChars s.data)

/-- Split on every occurrence of one delimiter character, keeping empty
fields, as the JavaScript String.split with a one-character separator. -/
def splitCharGo (d : Char) (cur : List Char) : List Char → List (List Char)
  | [] => [cur.reverse]
  | c :: rest =>
    if c = d then cur.reverse :: splitCharGo d [] rest
    else splitCharGo d (c :: cur) rest

/-- Split a string on a single delimiter character. -/
def splitChar (d : Char) (s : String) : List String :=
  (splitCharGo d [] s.data).map String.mk

/-- Value of a digit list read left to right. -/
def digitsToNat : List Char → Nat → Option Nat
  | [], acc => some acc
  | c :: rest, acc =>
    if c.isDigit then digitsToNat rest (acc * 10 + (c.toNat - 48)) else none

/-- Parse an unsigned decimal literal (digits, optional fraction) as in the
JavaScript Number(...) conversion. -/
def parseUnsigned (cs : List Char) : Option ℚ :=
  let intPart := cs.takeWhile Char.isDigit
  let rest := cs.dropWhile Char.isDigit
  match rest with
  | [] =>
    if intPart.isEmpty then none
    else (digitsToNat intPart 0).map (fun n => (n : ℚ))
  | '.' :: frac =>
    if frac.all Char.isDigit ∧ (intPart ≠ [] ∨ frac ≠ []) then
      match digitsToNat intPart 0, digitsToNat frac 0 with
      | some i, some f => some ((i : ℚ) + (f : ℚ) / ((10 : ℚ) ^ frac.length))
      | _, _ => none
    else none
  | _ => none

/-- The JavaScript Number(string) conversion, modelled for decimal inputs:
empty or all-whitespace strings convert to 0, signed decimal literals to
their value, "Infinity" forms to infinities, everything else to NaN. -/
def jsStringToNumber (s : String) : JSNum :=
  let t := jsTrim s
  if t = "" then .finite 0
  else if t = "Infinity" ∨ t = "+Infinity" then .posInf
  else if t = "-Infinity" then .negInf
  else
    match t.data with
    | '-' :: rest =>
      match parseUnsigned rest with
      | some q => .finite (-q)
      | none => .nan
    | '+' :: rest =>
      match parseUnsigned rest with
      | some q => .finite q
      | none => .nan
    | cs =>
      match parseUnsigned cs with
      | some q => .finite q
      | none => .nan

/-- The numeric value the coerceNumber helper works on: a number input is
used as is, a string input goes through Number(...), anything else is NaN. -/
def jsToNum : JSVal → JSNum
  | .num n => n
  | .str s => jsStringToNumber s
  | _ => .nan

/-- coerceNumber from the route source: the input if it converts to a
finite number greater than zero, the fallback otherwise. -/
def coerceNumber (input : JSVal) (fallback : ℚ) : ℚ :=
  match jsToNum input with
  | .finite v => if 0 < v then v else fallback
  | _ => fallback

/-- tr from the route source: trim a string input and return it when
non-empty; non-strings and blank strings become undefined. -/
def tr : JSVal → Option String
  | .str s =>
    let t := jsTrim s
    if t = "" then none else some t
  | _ => none

/-! ### Tag-list splitting -/

/-- A tag delimiter of the request-body path regex: comma or newline. -/
def isTagDelim (c : Char) : Bool := c = ',' ∨ c = '\n'

/-- Split on maximal nonempty runs of delimiter characters, as the
JavaScript String.split with a one-or-more character-class regex does:
leading and trailing delimiters contribute empty fields, consecutive
delimiters do not.  The Bool flag records being inside a delimiter run
whose preceding field has already been emitted. -/
def splitRunsAux (p : Char → Bool) : List Char → List Char → Bool → List (List Char)
  | [], cur, false => [cur.reverse]
  | [], _, true => [[]]
  | c :: rest, cur, false =>
    if p c then cur.reverse :: splitRunsAux p rest [] true
    else splitRunsAux p rest (c :: cur) false
  | c :: rest, cur, true =>
    if p c then splitRunsAux p rest cur true
    else splitRunsAux p rest [c] false

/-- Split a string on runs of delimiters. -/
def splitRuns (p : Char → Bool) (s : String) : List String :=
  (splitRunsAux p s.data [] false).map String.mk

/-- The request-body tag parsing: split on the comma-or-newline regex and
trim each field, with no filtering of empty fields. -/
def bodyTagSplit (s : String) : List String :=
  (splitRuns isTagDelim s).map jsTrim

/-- The env tag parsing: split on single commas, trim each field, and keep
only truthy (non-empty) fields. -/
def envTagSplit (s : String) : List String :=
  ((splitChar ',' s).map jsTrim).filter (fun t => t ≠ "")

/-! ### The raw request body and the coerced config record -/

/-- The untyped JSON body of an interactive POST request (any field may be
absent, which is the undefined value). -/
structure RawBody where
  openaiKey : JSVal := .undefined
  elevenLabsKey : JSVal := .undefined
  pexelsKey : JSVal := .undefined
  youtubeClientId : JSVal := .undefined
  youtubeClientSecret : JSVal := .undefined
  youtubeRefreshToken : JSVal := .undefined
  voiceId : JSVal := .undefined
  videoTopic : JSVal := .undefined
  targetDurationSeconds : JSVal := .undefined
  uploadTitleTemplate : JSVal := .undefined
  uploadDescriptionTemplate : JSVal := .undefined
  uploadTags : JSVal := .undefined
  visibility : JSVal := .undefined
  allowCopyrightAudio : JSVal := .undefined
  preset : JSVal := .undefined
  webhookUrl : JSVal := .undefined
  runContext : JSVal := .undefined
  extraInstructions : JSVal := .undefined
deriving DecidableEq, Repr

/-- The record both construction paths hand to the schema.  Credential
fields may still be undefined here (tr returns undefined for missing
input); the schema validation decides acceptance. -/
structure RawConfig where
  openaiKey : Option String
  elevenLabsKey : Option String
  pexelsKey : Option String
  youtubeClientId : Option String
  youtubeClientSecret : Option String
  youtubeRefreshToken : Option String
  voiceId : String
  videoTopic : String
  targetDurationSeconds : ℚ
  uploadTitleTemplate : String
  uploadDescriptionTemplate : String
  uploadTags : List String
  visibility : String
  allowCopyrightAudio : Bool
  preset : String
  webhookUrl : String
  runContext : String
  extraInstructions : String
deriving DecidableEq, Repr

/-- coerceBody from the route source, field by field. -/
def coerceBody (body : RawBody) : RawConfig :=
  let tags : List String :=
    match body.uploadTags with
    | .arr xs => xs
    | .str s => bodyTagSplit s
    | _ => []
  { openaiKey := tr body.openaiKey
    elevenLabsKey := tr body.elevenLabsKey
    pexelsKey := tr body.pexelsKey
    youtubeClientId := tr body.youtubeClientId
    youtubeClientSecret := tr body.youtubeClientSecret
    youtubeRefreshToken := tr body.youtubeRefreshToken
    voiceId := (tr body.voiceId).getD "21m00Tcm4TlvDq8ikWAM"
    videoTopic := (tr body.videoTopic).getD "Daily AI news round-up"
    targetDurationSeconds := coerceNumber body.targetDurationSeconds 120
    uploadTitleTemplate :=
      (tr body.uploadTitleTemplate).getD "Daily AI Highlights - \x7b\x7bdate\x7d\x7d"
    uploadDescriptionTemplate :=
      (tr body.uploadDescriptionTemplate).getD "Automated AI news for \x7b\x7bdate\x7d\x7d."
    uploadTags := tags
    visibility :=
      match tr body.visibility with
      | some v => if v = "private" ∨ v = "public" ∨ v = "unlisted" then v else "unlisted"
      | none => "unlisted"
    allowCopyrightAudio := jsTruthy body.allowCopyrightAudio
    preset :=
      match tr body.preset with
      | some p => if p = "facts" ∨ p = "longform" then p else "news"
      | none => "news"
    webhookUrl := (tr body.webhookUrl).getD ""
    runContext := (tr body.runContext).getD ""
    extraInstructions := (tr body.extraInstructions).getD "" }

/-! ### Environment-derived construction path -/

/-- The process environment variables read by deriveFromEnv. -/
structure Env where
  OPENAI_API_KEY : Option String := none
  ELEVENLABS_API_KEY : Option String := none
  PEXELS_API_KEY : Option String := none
  YOUTUBE_CLIENT_ID : Option String := none
  YOUTUBE_CLIENT_SECRET : Option String := none
  YOUTUBE_REFRESH_TOKEN : Option String := none
  PIPELINE_VOICE_ID : Option String := none
  PIPELINE_DEFAULT_TOPIC : Option String := none
  PIPELINE_TARGET_DURATION : Option String := none
  PIPELINE_UPLOAD_TITLE_TEMPLATE : Option String := none
  PIPELINE_UPLOAD_DESCRIPTION_TEMPLATE : Option String := none
  PIPELINE_UPLOAD_TAGS : Option String := none
  PIPELINE_UPLOAD_VISIBILITY : Option String := none
  PIPELINE_ALLOW_COPY_AUDIO : Option String := none
  PIPELINE_PRESET : Option String := none
  PIPELINE_WEBHOOK_URL : Option String := none
  PIPELINE_RUN_CONTEXT : Option String := none
  PIPELINE_EXTRA_INSTRUCTIONS : Option String := none
deriving DecidableEq, Repr

/-- An optional env string as the JavaScript value coerceNumber receives. -/
def jsOfEnv : Option String → JSVal
  | some s => .str s
  | none => .undefined

/-- The record deriveFromEnv builds before handing it to the schema. -/
def envRaw (env : Env) : RawConfig :=
  let tags : List String :=
    match env.PIPELINE_UPLOAD_TAGS with
    | some s => envTagSplit s
    | none => []
  { openaiKey := env.OPENAI_API_KEY
    elevenLabsKey := env.ELEVENLABS_API_KEY
    pexelsKey := env.PEXELS_API_KEY
    youtubeClientId := env.YOUTUBE_CLIENT_ID
    youtubeClientSecret := env.YOUTUBE_CLIENT_SECRET
    youtubeRefreshToken := env.YOUTUBE_REFRESH_TOKEN
    voiceId := env.PIPELINE_VOICE_ID.getD "21m00Tcm4TlvDq8ikWAM"
    videoTopic := env.PIPELINE_DEFAULT_TOPIC.getD "Daily AI news recap"
    targetDurationSeconds := coerceNumber (jsOfEnv env.PIPELINE_TARGET_DURATION) 120
    uploadTitleTemplate :=
      env.PIPELINE_UPLOAD_TITLE_TEMPLATE.getD "Daily AI Briefing - \x7b\x7bdate\x7d\x7d"
    uploadDescriptionTemplate :=
      env.PIPELINE_UPLOAD_DESCRIPTION_TEMPLATE.getD "Automated summary for \x7b\x7bdate\x7d\x7d."
    uploadTags := tags
    visibility := env.PIPELINE_UPLOAD_VISIBILITY.getD "unlisted"
    allowCopyrightAudio := env.PIPELINE_ALLOW_COPY_AUDIO = some "true"
    preset := env.PIPELINE_PRESET.getD "news"
    webhookUrl := env.PIPELINE_WEBHOOK_URL.getD ""
    runContext := env.PIPELINE_RUN_CONTEXT.getD ""
    extraInstructions := env.PIPELINE_EXTRA_INSTRUCTIONS.getD "" }

/-! ### The shared request schema, modelled from the spec -/

/-- One field-level validation issue: field name and message. -/
def checkPresent (field : String) (v : Option String) : List (String × String) :=
  match v with
  | some s => if s = "" then [(field, "Required")] else []
  | none => [(field, "Required")]

/-- Check that a plain string field is non-empty. -/
def checkNonempty (field : String) (s : String) : List (String × String) :=
  if s = "" then [(field, "Required")] else []

/-- Check that the target duration is positive. -/
def durationCheck (r : RawConfig) : List (String × String) :=
  if 0 < r.targetDurationSeconds then []
  else [("targetDurationSeconds", "Must be greater than zero")]

/-- Check that the visibility is one of the closed enumeration. -/
def visibilityCheck (r : RawConfig) : List (String × String) :=
  if r.visibility = "public" ∨ r.visibility = "unlisted" ∨ r.visibility = "private" then []
  else [("visibility", "Invalid visibility")]

/-- Check that the preset is one of the closed enumeration. -/
def presetCheck (r : RawConfig) : List (String × String) :=
  if r.preset = "news" ∨ r.preset = "facts" ∨ r.preset = "longform" then []
  else [("preset", "Invalid preset")]

/-- Modelled from the spec: the single validation routine of the request
schema (the schema library file is not among the provided sources).  The
spec requires each credential present, a topic and voice, a target
duration greater than zero, and visibility and preset drawn from their
closed enumerations; it reports structured field-level issues. -/
def validateRaw (r : RawConfig) : List (String × String) :=
  checkPresent "openaiKey" r.openaiKey ++
  checkPresent "elevenLabsKey" r.elevenLabsKey ++
  checkPresent "pexelsKey" r.pexelsKey ++
  checkPresent "youtubeClientId" r.youtubeClientId ++
  checkPresent "youtubeClientSecret" r.youtubeClientSecret ++
  checkPresent "youtubeRefreshToken" r.youtubeRefreshToken ++
  checkNonempty "videoTopic" r.videoTopic ++
  checkNonempty "voiceId" r.voiceId ++
  durationCheck r ++
  visibilityCheck r ++
  presetCheck r

/-- Modelled from the spec: safeParse of the shared schema — the validated
config when there are no issues, the issue list otherwise. -/
def schemaSafeParse (r : RawConfig) : Except (List (String × String)) RawConfig :=
  match validateRaw r with
  | [] => .ok r
  | issues => .error issues

/-- deriveFromEnv from the route source: build the record from env defaults
and run it through the same schema (schema.parse, whose failure throws,
is the error side of the result). -/
def deriveFromEnv (env : Env) : Except (List (String × String)) RawConfig :=
  schemaSafeParse (envRaw env)

/-! ### The pipeline conductor, modelled from the spec -/

/-- Modelled from the spec: the outcome of each external stage of one run
(the pipeline library file is not among the provided sources).  Each stage
either succeeds with a summary or fails with a failure detail. -/
structure StageOutcomes where
  scriptOk : Bool
  narrationOk : Bool
  footageOk : Bool
  renderOk : Bool
  publishOk : Bool
  notifyOk : Bool
  scriptSummary : String := ""
  narrationSummary : String := ""
  footageSummary : String := ""
  renderSummary : String := ""
  publishedUrl : String := ""
  failDetail : String := ""
  notifyDetail : String := ""
deriving DecidableEq, Repr

/-- The leading info event the conductor emits before a stage runs. -/
def evInfo (stage : String) : RunEvent :=
  { id := "info-" ++ stage, status := .info, title := stage }

/-- The progress event summarizing a completed stage. -/
def evProgress (stage summary : String) : RunEvent :=
  { id := "progress-" ++ stage, status := .progress, title := stage, detail := some summary }

/-- The uploading event emitted when the publish stage starts. -/
def evUploading : RunEvent :=
  { id := "uploading", status := .uploading, title := "Publish" }

/-- The terminal success event, carrying the publish result in metadata. -/
def evSuccess (url : String) : RunEvent :=
  { id := "success", status := .success, title := "Completed",
    meta := [("publishedUrl", url)] }

/-- The terminal error event for a failed stage. -/
def evStageFailure (stage detail : String) : RunEvent :=
  { id := "error-" ++ stage, status := .error, title := stage, detail := some detail }

/-- The non-terminal error event for a notify failure after a successful
publish. -/
def evNotifyFailure (detail : String) : RunEvent :=
  { id := "error-Notify", status := .error, title := "Notify", detail := some detail }

/-- Modelled from the spec: the conductor runs Script, Narration, Footage,
Render, Publish and Notify in order, emits an info event before each
stage and a progress (or uploading) event after it, stops at the first
failing stage with a terminal error event, and treats a notify failure
after a successful publish as a non-terminal error event followed by the
terminal success event. -/
def conductorEvents (oc : StageOutcomes) : List RunEvent :=
  evInfo "Script" ::
    (if oc.scriptOk then
      evProgress "Script" oc.scriptSummary ::
        evInfo "Narration" ::
          (if oc.narrationOk then
            evProgress "Narration" oc.narrationSummary ::
              evInfo "Footage" ::
                (if oc.footageOk then
                  evProgress "Footage" oc.footageSummary ::
                    evInfo "Render" ::
                      (if oc.renderOk then
                        evProgress "Render" oc.renderSummary ::
                          evUploading ::
                            (if oc.publishOk then
                              if oc.notifyOk then [evSuccess oc.publishedUrl]
                              else
                                [evNotifyFailure oc.notifyDetail,
                                  evSuccess oc.publishedUrl]
                            else [evStageFailure "Publish" oc.failDetail])
                      else [evStageFailure "Render" oc.failDetail])
                else [evStageFailure "Footage" oc.failDetail])
          else [evStageFailure "Narration" oc.failDetail])
    else [evStageFailure "Script" oc.failDetail])

/-! ### JSON encoding of events, as the transport serializes them -/

/-- Escape one character as JSON.stringify does for string values. -/
def escapeChar (c : Char) : String :=
  if c = '"' then "\\\""
  else if c = '\\' then "\\\\"
  else if c = '\n' then "\\n"
  else if c = '\r' then "\\r"
  else if c = '\t' then "\\t"
  else String.mk [c]

/-- Escape a whole string for inclusion in a JSON document. -/
def escapeJson (s : String) : String :=
  String.join (s.data.map escapeChar)

/-- A JSON string literal. -/
def quoteJson (s : String) : String :=
  "\"" ++ escapeJson s ++ "\""

/-- The wire name of a status value. -/
def statusText : Status → String
  | .info => "info"
  | .progress => "progress"
  | .uploading => "uploading"
  | .success => "success"
  | .error => "error"

/-- Join JSON members with commas. -/
def joinComma : List String → String
  | [] => ""
  | [x] => x
  | x :: rest => x ++ "," ++ joinComma rest

/-- The optional detail member (absent detail is omitted, as
JSON.stringify omits undefined properties). -/
def detailJson : Option String → String
  | none => ""
  | some d => ",\"detail\":" ++ quoteJson d

/-- The optional meta member. -/
def metaJson : List (String × String) → String
  | [] => ""
  | ps =>
    ",\"meta\":\x7b" ++
      joinComma (ps.map (fun p => quoteJson p.1 ++ ":" ++ quoteJson p.2)) ++ "\x7d"

/-- JSON.stringify of one run event, in the field order of the RunEvent
record. -/
def encodeEvent (e : RunEvent) : String :=
  "\x7b" ++
    ("\"id\":" ++ quoteJson e.id ++
      ",\"status\":" ++ quoteJson (statusText e.status) ++
      ",\"title\":" ++ quoteJson e.title ++
      detailJson e.detail ++
      ",\"timestamp\":" ++ quoteJson e.timestamp ++
      metaJson e.meta ++ "\x7d")

/-! ### The interactive POST transport -/

/-- How the pipeline generator ends: it either completes normally or
throws with a message. -/
inductive GenOutcome where
  | normal
  | throws (msg : String)
deriving DecidableEq, Repr

/-- The pipeline generator as the transport sees it: the events it yields
in order, then how it ends. -/
structure Generator where
  events : List RunEvent
  outcome : GenOutcome
deriving DecidableEq, Repr

/-- One server-sent-event frame. -/
def dataFrame (payload : String) : String :=
  "data: " ++ payload ++ "\n\n"

/-- The sentinel frame closing a normally completed stream. -/
def doneFrame : String := dataFrame "[DONE]"

/-- The event the POST handler synthesizes when the generator throws:
a fresh id, error status, title Fatal, the thrown message as detail and
the current timestamp. -/
def fatalEvent (uuid ts msg : String) : RunEvent :=
  { id := uuid, status := .error, title := "Fatal", detail := some msg, timestamp := ts }

/-- The frames the POST ReadableStream emits when the consumer pulls the
stream to completion: one data frame per yielded event, then either the
sentinel (normal completion and close) or a synthesized fatal error frame
(throw and close, no sentinel). -/
def runStream (uuid ts : String) : List RunEvent → GenOutcome → List String
  | [], .normal => [doneFrame]
  | [], .throws m => [dataFrame (encodeEvent (fatalEvent uuid ts m))]
  | e :: rest, oc => dataFrame (encodeEvent e) :: runStream uuid ts rest oc

/-- The response of the interactive POST entry point. -/
inductive PostResult where
  | invalid (statusCode : Nat) (message : String) (issues : List (String × String))
  | stream (frames : List String)
deriving DecidableEq, Repr

/-- POST from the route source: coerce the body, safeParse it through the
schema, answer 422 with the flattened issues on failure, otherwise build
the pipeline generator and stream its events. -/
def POST (uuid ts : String) (gen : RawConfig → Generator) (body : RawBody) : PostResult :=
  match schemaSafeParse (coerceBody body) with
  | .error issues => .invalid 422 "Invalid payload" issues
  | .ok cfg => .stream (runStream uuid ts (gen cfg).events (gen cfg).outcome)

/-! ### The unattended GET entry point -/

/-- The JSON document the GET handler returns. -/
structure GetResult where
  ok : Bool
  statusCode : Nat
  message : Option String
  events : List RunEvent
deriving DecidableEq, Repr

/-- GET from the route source: derive the config from the environment,
exhaust the generator collecting every event, and answer ok with the full
list, or ok false with the events collected up to the throw. -/
def GET (gen : RawConfig → Generator) (env : Env) : GetResult :=
  match deriveFromEnv env with
  | .error issues =>
    { ok := false, statusCode := 500,
      message := some (joinComma (issues.map Prod.fst)), events := [] }
  | .ok cfg =>
    match (gen cfg).outcome with
    | .normal =>
      { ok := true, statusCode := 200, message := none, events := (gen cfg).events }
    | .throws m =>
      { ok := false, statusCode := 500, message := some m, events := (gen cfg).events }

/-! ### The pull-and-cancel transport state machine -/

/-- The state of the POST stream: the events the generator has not yet
yielded, how it will end, and whether the stream is closed (the
controller closed it or the consumer cancelled). -/
structure TState where
  pending : List RunEvent
  outcome : GenOutcome
  closed : Bool
deriving DecidableEq, Repr

/-- The initial stream state over a generator. -/
def initState (g : Generator) : TState :=
  { pending := g.events, outcome := g.outcome, closed := false }

/-- One consumer action: pull the next chunk, or cancel the stream (stop
consuming; the cancel callback closes the generator). -/
inductive Act where
  | pull
  | cancel
deriving DecidableEq, Repr

/-- One pull step of the ReadableStream: on an open stream, forward the
next event, or emit the sentinel and close, or synthesize the fatal frame
and close; a closed stream is never pulled again, so a pull on it yields
nothing. -/
def stepPull (uuid ts : String) (s : TState) : List String × TState :=
  if s.closed then ([], s)
  else
    match s.pending with
    | e :: rest => ([dataFrame (encodeEvent e)], { s with pending := rest })
    | [] =>
      match s.outcome with
      | .normal => ([doneFrame], { s with closed := true })
      | .throws m =>
        ([dataFrame (encodeEvent (fatalEvent uuid ts m))], { s with closed := true })

/-- Run a sequence of consumer actions, collecting the emitted frames and
the final state.  Cancelling closes the stream and returns the generator,
so no later action can produce a frame or consume an event. -/
def runActs (uuid ts : String) : TState → List Act → List String × TState
  | s, [] => ([], s)
  | s, .pull :: rest =>
    let out := stepPull uuid ts s
    let next := runActs uuid ts out.2 rest
    (out.1 ++ next.1, next.2)
  | s, .cancel :: rest => runActs uuid ts { s with closed := true } rest

/-! ### Title and description template expansion, modelled from the spec -/

/-- The date token of the upload templates. -/
def tokenChars : List Char := ['\x7b', '\x7b', 'd', 'a', 't', 'e', '\x7d', '\x7d']

/-- Modelled from the spec: template expansion substitutes the resolved
date for every date token (the publish stage file is not among the
provided sources). -/
def expandDate (d : List Char) : List Char → List Char
  | '\x7b' :: '\x7b' :: 'd' :: 'a' :: 't' :: 'e' :: '\x7d' :: '\x7d' :: rest =>
    d ++ expandDate d rest
  | c :: rest => c :: expandDate d rest
  | [] => []

/-- Whether a character sequence contains the date token. -/
def hasDateToken : List Char → Bool
  | '\x7b' :: '\x7b' :: 'd' :: 'a' :: 't' :: 'e' :: '\x7d' :: '\x7d' :: _ => true
  | _ :: rest => hasDateToken rest
  | [] => false

/-- The daily briefing template of the testable-properties section. -/
def dailyBriefingTemplate : List Char := "Daily Briefing - \x7b\x7bdate\x7d\x7d".data

/-! ### Transport lemmas -/

lemma runStream_normal (u t : String) (evs : List RunEvent) :
    runStream u t evs .normal = evs.map (fun e => dataFrame (encodeEvent e)) ++ [doneFrame] := by
  induction evs with
  | nil => rfl
  | cons e rest ih => simp [runStream, ih]

lemma runStream_throws (u t m : String) (evs : List RunEvent) :
    runStream u t evs (.throws m) =
      evs.map (fun e => dataFrame (encodeEvent e)) ++
        [dataFrame (encodeEvent (fatalEvent u t m))] := by
  induction evs with
  | nil => rfl
  | cons e rest ih => simp [runStream, ih]

lemma dataFrame_encode_ne_done (e : RunEvent) : dataFrame (encodeEvent e) ≠ doneFrame := by
  intro h
  have h1 : (dataFrame (encodeEvent e)).data.get? 6 = some '\x7b' := rfl
  rw [h] at h1
  have h2 : (doneFrame).data.get? 6 = some '[' := rfl
  rw [h2] at h1
  simp at h1

lemma done_mem_runStream (u t : String) (evs : List RunEvent) (oc : GenOutcome) :
    doneFrame ∈ runStream u t evs oc ↔ oc = .normal := by
  induction evs with
  | nil =>
    cases oc with
    | normal => simp [runStream]
    | throws m =>
      simp [runStream]
      exact fun hh => absurd hh.symm (dataFrame_encode_ne_done (fatalEvent u t m))
  | cons e rest ih =>
    cases oc with
    | normal => simp [runStream, ih]
    | throws m =>
      simp [runStream, ih]
      exact fun hh => absurd hh.symm (dataFrame_encode_ne_done e)

lemma stepPull_closed (u t : String) (s : TState) (hs : s.closed = true) :
    stepPull u t s = ([], s) := by
  simp [stepPull, hs]

lemma runActs_closed (u t : String) (s : TState) (hs : s.closed = true) (acts : List Act) :
    runActs u t s acts = ([], s) := by
  induction acts with
  | nil => rfl
  | cons a rest ih =>
    cases a with
    | pull => simp [runActs, stepPull_closed u t s hs, ih]
    | cancel =>
      have hself : { s with closed := true } = s := by
        cases s
        simp at hs
        simp [hs]
      rw [runActs, hself, ih]

lemma runActs_append (u t : String) (a b : List Act) : ∀ (s : TState),
    runActs u t s (a ++ b) =
      ((runActs u t s a).1 ++ (runActs u t (runActs u t s a).2 b).1,
        (runActs u t (runActs u t s a).2 b).2) := by
  induction a with
  | nil => intro s; simp [runActs]
  | cons x rest ih =>
    intro s
    cases x with
    | pull => simp [runActs, ih]
    | cancel => simp [runActs, ih]

/-! ### Template expansion lemmas -/

lemma expandDate_noToken (d : List Char) (s : List Char) (h : hasDateToken s = false) :
    expandDate d s = s := by
  induction s using expandDate.induct d with
  | case1 rest => simp [hasDateToken] at h
  | case2 c rest hno ih =>
    rw [hasDateToken.eq_2 c rest hno] at h
    rw [expandDate.eq_2 d c rest hno, ih h]
  | case3 => rfl

lemma expandDate_daily (d : List Char) :
    expandDate d dailyBriefingTemplate = "Daily Briefing - ".data ++ d := by
  simp [dailyBriefingTemplate, expandDate]

lemma hasDateToken_daily_expanded (d : List Char) (hd : hasDateToken d = false) :
    hasDateToken ("Daily Briefing - ".data ++ d) = false := by
  simp [hasDateToken, hd]

/-! ### Claim theorems -/

/-- C1: for every run, the conductor's event sequence is non-empty, its
last event has status success or error, and every earlier event is
non-terminal: never a success, and an error only in runs whose terminal
event is the success (the non-terminal notify failure), so the sequence
contains exactly one terminal event and no event follows it. -/
theorem conductor_single_terminal (oc : StageOutcomes) :
    conductorEvents oc ≠ [] ∧
    ∃ e, (conductorEvents oc).getLast? = some e ∧
      (e.status = Status.success ∨ e.status = Status.error) ∧
      ∀ e2 ∈ (conductorEvents oc).dropLast,
        e2.status ≠ Status.success ∧ (e2.status = Status.error → e.status = Status.success) := by
  obtain ⟨s, n, f, r, p, no, ss, ns, fs, rs, pu, fd, nd⟩ := oc
  cases s <;> cases n <;> cases f <;> cases r <;> cases p <;> cases no <;>
    simp [conductorEvents, evInfo, evProgress, evUploading, evSuccess, evStageFailure,
      evNotifyFailure]

/-- Witness for C1 at a concrete run with a notify failure. -/
theorem conductor_single_terminal_witness :
    conductorEvents
        { scriptOk := true, narrationOk := true, footageOk := true, renderOk := true,
          publishOk := true, notifyOk := false } ≠ [] ∧
      ∃ e,
        (conductorEvents
              { scriptOk := true, narrationOk := true, footageOk := true, renderOk := true,
                publishOk := true, notifyOk := false }).getLast? = some e ∧
          (e.status = Status.success ∨ e.status = Status.error) ∧
          ∀ e2 ∈ (conductorEvents
                { scriptOk := true, narrationOk := true, footageOk := true, renderOk := true,
                  publishOk := true, notifyOk := false }).dropLast,
            e2.status ≠ Status.success ∧
              (e2.status = Status.error → e.status = Status.success) :=
  conductor_single_terminal
    { scriptOk := true, narrationOk := true, footageOk := true, renderOk := true,
      publishOk := true, notifyOk := false }

/-- C6: when every stage up to Publish succeeds and Notify fails, the run
still ends with the terminal success event carrying the publish result,
and the notify failure appears as a non-terminal error event immediately
before it. -/
theorem notify_failure_keeps_success_terminal (oc : StageOutcomes)
    (h1 : oc.scriptOk = true) (h2 : oc.narrationOk = true) (h3 : oc.footageOk = true)
    (h4 : oc.renderOk = true) (h5 : oc.publishOk = true) (h6 : oc.notifyOk = false) :
    conductorEvents oc =
      [evInfo "Script", evProgress "Script" oc.scriptSummary,
        evInfo "Narration", evProgress "Narration" oc.narrationSummary,
        evInfo "Footage", evProgress "Footage" oc.footageSummary,
        evInfo "Render", evProgress "Render" oc.renderSummary,
        evUploading,
        evNotifyFailure oc.notifyDetail,
        evSuccess oc.publishedUrl] ∧
    (evSuccess oc.publishedUrl).status = Status.success ∧
    (evSuccess oc.publishedUrl).meta = [("publishedUrl", oc.publishedUrl)] ∧
    (evNotifyFailure oc.notifyDetail).status = Status.error ∧
    (conductorEvents oc).getLast? = some (evSuccess oc.publishedUrl) := by
  refine ⟨?_, rfl, rfl, rfl, ?_⟩
  · simp [conductorEvents, h1, h2, h3, h4, h5, h6]
  · simp [conductorEvents, h1, h2, h3, h4, h5, h6]

/-- Witness for C6 at a concrete run. -/
theorem notify_failure_keeps_success_terminal_witness :
    conductorEvents
        { scriptOk := true, narrationOk := true, footageOk := true, renderOk := true,
          publishOk := true, notifyOk := false, publishedUrl := "https://youtu.be/x",
          notifyDetail := "webhook 500" } =
      [evInfo "Script", evProgress "Script" "",
        evInfo "Narration", evProgress "Narration" "",
        evInfo "Footage", evProgress "Footage" "",
        evInfo "Render", evProgress "Render" "",
        evUploading,
        evNotifyFailure "webhook 500",
        evSuccess "https://youtu.be/x"] ∧
    (evSuccess "https://youtu.be/x").status = Status.success ∧
    (evSuccess "https://youtu.be/x").meta = [("publishedUrl", "https://youtu.be/x")] ∧
    (evNotifyFailure "webhook 500").status = Status.error ∧
    (conductorEvents
        { scriptOk := true, narrationOk := true, footageOk := true, renderOk := true,
          publishOk := true, notifyOk := false, publishedUrl := "https://youtu.be/x",
          notifyDetail := "webhook 500" }).getLast? = some (evSuccess "https://youtu.be/x") :=
  notify_failure_keeps_success_terminal
    { scriptOk := true, narrationOk := true, footageOk := true, renderOk := true,
      publishOk := true, notifyOk := false, publishedUrl := "https://youtu.be/x",
      notifyDetail := "webhook 500" }
    rfl rfl rfl rfl rfl rfl

/-- A request body carrying all six required credentials, used to witness
the valid-path theorems. -/
def validBody : RawBody :=
  { openaiKey := .str "sk-1", elevenLabsKey := .str "el-1", pexelsKey := .str "px-1",
    youtubeClientId := .str "cid", youtubeClientSecret := .str "sec",
    youtubeRefreshToken := .str "ref" }

/-- C2: when the coerced body fails schema validation, POST answers a 422
client error carrying the structured field-level issues; the result does
not depend on the pipeline generator at all, and no stream (hence no
event) is produced. -/
theorem post_rejects_invalid_body (uuid ts : String) (gen : RawConfig → Generator)
    (body : RawBody) (issues : List (String × String))
    (h : schemaSafeParse (coerceBody body) = .error issues) :
    POST uuid ts gen body = .invalid 422 "Invalid payload" issues ∧
    (∀ gen2, POST uuid ts gen2 body = .invalid 422 "Invalid payload" issues) ∧
    (∀ frames, POST uuid ts gen body ≠ .stream frames) := by
  have hpost : ∀ gen2 : RawConfig → Generator,
      POST uuid ts gen2 body = .invalid 422 "Invalid payload" issues := by
    intro gen2
    simp [POST, h]
  exact ⟨hpost gen, hpost, fun frames hc => by rw [hpost gen] at hc; cases hc⟩

/-- Witness for C2: the empty body has no credentials, so validation
fails and POST answers 422 regardless of the generator. -/
theorem post_rejects_invalid_body_witness :
    POST "u" "t" (fun _ => ⟨[], .normal⟩) {} =
      .invalid 422 "Invalid payload"
        [("openaiKey", "Required"), ("elevenLabsKey", "Required"), ("pexelsKey", "Required"),
          ("youtubeClientId", "Required"), ("youtubeClientSecret", "Required"),
          ("youtubeRefreshToken", "Required")] :=
  (post_rejects_invalid_body "u" "t" (fun _ => ⟨[], .normal⟩) {} _ rfl).1

/-- C3: on a validated body whose generator completes normally, the POST
stream is exactly one data frame per yielded event, in yield order with
no reordering, duplication or dropping, followed by the DONE sentinel;
each data frame wraps the JSON encoding of its single event. -/
theorem post_streams_events_in_order (uuid ts : String) (gen : RawConfig → Generator)
    (body : RawBody) (cfg : RawConfig)
    (hok : schemaSafeParse (coerceBody body) = .ok cfg)
    (hnormal : (gen cfg).outcome = .normal) :
    POST uuid ts gen body =
      .stream ((gen cfg).events.map (fun e => dataFrame (encodeEvent e)) ++ [doneFrame]) := by
  simp [POST, hok, hnormal, runStream_normal]

/-- Witness for C3 with a two-event generator. -/
theorem post_streams_events_in_order_witness :
    POST "u" "t" (fun _ => ⟨[evInfo "Script", evUploading], GenOutcome.normal⟩) validBody =
      .stream [dataFrame (encodeEvent (evInfo "Script")), dataFrame (encodeEvent evUploading),
        doneFrame] :=
  post_streams_events_in_order "u" "t"
    (fun _ => ⟨[evInfo "Script", evUploading], GenOutcome.normal⟩) validBody
    (coerceBody validBody) rfl rfl

/-- C9: on a validated body whose generator throws, the POST stream is the
frames of the events yielded before the throw followed by one synthesized
error event titled Fatal carrying the thrown message, and the DONE
sentinel never appears; in general the sentinel appears in a stream
exactly when the generator completes without throwing. -/
theorem post_fatal_frame_on_throw (uuid ts : String) (gen : RawConfig → Generator)
    (body : RawBody) (cfg : RawConfig) (m : String)
    (hok : schemaSafeParse (coerceBody body) = .ok cfg)
    (hthrow : (gen cfg).outcome = .throws m) :
    POST uuid ts gen body =
      .stream ((gen cfg).events.map (fun e => dataFrame (encodeEvent e)) ++
        [dataFrame (encodeEvent (fatalEvent uuid ts m))]) ∧
    (fatalEvent uuid ts m).status = Status.error ∧
    (fatalEvent uuid ts m).title = "Fatal" ∧
    (fatalEvent uuid ts m).detail = some m ∧
    doneFrame ∉ runStream uuid ts (gen cfg).events (gen cfg).outcome ∧
    (∀ evs oc, doneFrame ∈ runStream uuid ts evs oc ↔ oc = GenOutcome.normal) := by
  refine ⟨?_, rfl, rfl, rfl, ?_, fun evs oc => done_mem_runStream uuid ts evs oc⟩
  · simp [POST, hok, hthrow, runStream_throws]
  · rw [done_mem_runStream, hthrow]
    simp

/-- Witness for C9 with a generator that throws after one event. -/
theorem post_fatal_frame_on_throw_witness :
    POST "u" "t" (fun _ => ⟨[evInfo "Script"], GenOutcome.throws "boom"⟩) validBody =
      .stream [dataFrame (encodeEvent (evInfo "Script")),
        dataFrame (encodeEvent (fatalEvent "u" "t" "boom"))] ∧
    (fatalEvent "u" "t" "boom").status = Status.error ∧
    (fatalEvent "u" "t" "boom").title = "Fatal" ∧
    (fatalEvent "u" "t" "boom").detail = some "boom" ∧
    doneFrame ∉ runStream "u" "t" [evInfo "Script"] (GenOutcome.throws "boom") ∧
    (∀ evs oc, doneFrame ∈ runStream "u" "t" evs oc ↔ oc = GenOutcome.normal) :=
  post_fatal_frame_on_throw "u" "t"
    (fun _ => ⟨[evInfo "Script"], GenOutcome.throws "boom"⟩) validBody
    (coerceBody validBody) "boom" rfl rfl

/-- C4: on a validly derived config, the GET handler exhausts the
generator and returns one document with the complete ordered event list
and the overall success boolean; when the generator throws, it returns
ok false with status 500, the thrown message, and the full event trail
collected up to the failure. -/
theorem get_collects_full_trail (gen : RawConfig → Generator) (env : Env) (cfg : RawConfig)
    (hok : deriveFromEnv env = .ok cfg) :
    (GET gen env).events = (gen cfg).events ∧
    ((GET gen env).ok = true ↔ (gen cfg).outcome = GenOutcome.normal) ∧
    ((gen cfg).outcome = GenOutcome.normal →
      GET gen env =
        { ok := true, statusCode := 200, message := none, events := (gen cfg).events }) ∧
    (∀ m, (gen cfg).outcome = GenOutcome.throws m →
      GET gen env =
        { ok := false, statusCode := 500, message := some m, events := (gen cfg).events }) := by
  cases h : (gen cfg).outcome with
  | normal =>
    refine ⟨?_, ?_, ?_, ?_⟩ <;> simp [GET, hok, h]
  | throws m =>
    refine ⟨?_, ?_, ?_, ?_⟩ <;> simp [GET, hok, h]

/-- An environment carrying all six required credentials, used to witness
the unattended-path theorem. -/
def validEnv : Env :=
  { OPENAI_API_KEY := some "sk-1", ELEVENLABS_API_KEY := some "el-1",
    PEXELS_API_KEY := some "px-1", YOUTUBE_CLIENT_ID := some "cid",
    YOUTUBE_CLIENT_SECRET := some "sec", YOUTUBE_REFRESH_TOKEN := some "ref" }

/-- Witness for C4 with a generator that throws after one event. -/
theorem get_collects_full_trail_witness :
    (GET (fun _ => ⟨[evInfo "Script"], GenOutcome.throws "boom"⟩) validEnv).events =
      [evInfo "Script"] ∧
    ((GET (fun _ => ⟨[evInfo "Script"], GenOutcome.throws "boom"⟩) validEnv).ok = true ↔
      GenOutcome.throws "boom" = GenOutcome.normal) ∧
    GET (fun _ => ⟨[evInfo "Script"], GenOutcome.throws "boom"⟩) validEnv =
      { ok := false, statusCode := 500, message := some "boom",
        events := [evInfo "Script"] } := by
  have h := get_collects_full_trail
    (fun _ => ⟨[evInfo "Script"], GenOutcome.throws "boom"⟩) validEnv
    (envRaw validEnv) rfl
  exact ⟨h.1, h.2.1, h.2.2.2 "boom" rfl⟩

/-- C5: cancelling the interactive stream closes it, so however the
consumer behaves afterwards, no further frame is emitted and the pending
events (the stages the generator has not yet executed) stay untouched:
once the observer cancels between two stages, the next stage never starts
and no event is produced after the cancellation. -/
theorem cancel_stops_stream (uuid ts : String) (g : Generator) (acts1 acts2 : List Act) :
    (runActs uuid ts (initState g) (acts1 ++ Act.cancel :: acts2)).1 =
      (runActs uuid ts (initState g) acts1).1 ∧
    (runActs uuid ts (initState g) (acts1 ++ Act.cancel :: acts2)).2.pending =
      (runActs uuid ts (initState g) acts1).2.pending := by
  rw [runActs_append]
  have hclosed : ({ (runActs uuid ts (initState g) acts1).2 with closed := true } : TState).closed
      = true := rfl
  have hcan : runActs uuid ts (runActs uuid ts (initState g) acts1).2 (Act.cancel :: acts2) =
      ([], { (runActs uuid ts (initState g) acts1).2 with closed := true }) := by
    rw [runActs, runActs_closed uuid ts _ hclosed]
  rw [hcan]
  simp

/-- Witness for C5: after two pulls and a cancel, later pulls add nothing
and the third event is never consumed. -/
theorem cancel_stops_stream_witness :
    (runActs "u" "t"
        (initState ⟨[evInfo "Script", evInfo "Narration", evInfo "Footage"], GenOutcome.normal⟩)
        ([Act.pull, Act.pull] ++ Act.cancel :: [Act.pull, Act.pull])).1 =
      (runActs "u" "t"
        (initState ⟨[evInfo "Script", evInfo "Narration", evInfo "Footage"], GenOutcome.normal⟩)
        [Act.pull, Act.pull]).1 ∧
    (runActs "u" "t"
        (initState ⟨[evInfo "Script", evInfo "Narration", evInfo "Footage"], GenOutcome.normal⟩)
        ([Act.pull, Act.pull] ++ Act.cancel :: [Act.pull, Act.pull])).2.pending =
      (runActs "u" "t"
        (initState ⟨[evInfo "Script", evInfo "Narration", evInfo "Footage"], GenOutcome.normal⟩)
        [Act.pull, Act.pull]).2.pending :=
  cancel_stops_stream "u" "t"
    ⟨[evInfo "Script", evInfo "Narration", evInfo "Footage"], GenOutcome.normal⟩
    [Act.pull, Act.pull] [Act.pull, Act.pull]

/-- C8: template expansion leaves token-free strings unchanged
(idempotence on already-expanded input), and for a fixed token-free date
value, expanding the daily briefing template once or any further number
of times always yields the same string, the template with the date
substituted. -/
theorem template_expansion_idempotent_deterministic (d s : List Char)
    (hs : hasDateToken s = false) (hd : hasDateToken d = false) :
    expandDate d s = s ∧
    (∀ n : ℕ, (expandDate d)^[n + 1] dailyBriefingTemplate =
      "Daily Briefing - ".data ++ d) := by
  refine ⟨expandDate_noToken d s hs, ?_⟩
  intro n
  induction n with
  | zero => simp [expandDate_daily]
  | succ k ih =>
    rw [Function.iterate_succ_apply', ih]
    exact expandDate_noToken d _ (hasDateToken_daily_expanded d hd)

/-- Witness for C8 with a concrete date. -/
theorem template_expansion_witness :
    expandDate "2026-10-11".data "Daily Briefing - 2026-10-11".data =
      "Daily Briefing - 2026-10-11".data ∧
    (∀ n : ℕ, (expandDate "2026-10-11".data)^[n + 1] dailyBriefingTemplate =
      "Daily Briefing - ".data ++ "2026-10-11".data) :=
  template_expansion_idempotent_deterministic "2026-10-11".data
    "Daily Briefing - 2026-10-11".data (by decide) (by decide)

/-! ### coerceBody normalization lemmas -/

lemma coerceBody_duration_pos (body : RawBody) :
    0 < (coerceBody body).targetDurationSeconds := by
  simp only [coerceBody, coerceNumber]
  rcases jsToNum body.targetDurationSeconds with q | _ | _ | _ <;> simp
  split
  · assumption
  · norm_num

lemma coerceBody_visibility_mem (body : RawBody) :
    (coerceBody body).visibility = "public" ∨ (coerceBody body).visibility = "unlisted" ∨
      (coerceBody body).visibility = "private" := by
  simp only [coerceBody]
  rcases tr body.visibility with _ | v
  · exact Or.inr (Or.inl rfl)
  · simp only []
    by_cases hc : v = "private" ∨ v = "public" ∨ v = "unlisted"
    · rw [if_pos hc]
      rcases hc with rfl | rfl | rfl
      · exact Or.inr (Or.inr rfl)
      · exact Or.inl rfl
      · exact Or.inr (Or.inl rfl)
    · rw [if_neg hc]
      exact Or.inr (Or.inl rfl)

lemma coerceBody_preset_mem (body : RawBody) :
    (coerceBody body).preset = "news" ∨ (coerceBody body).preset = "facts" ∨
      (coerceBody body).preset = "longform" := by
  simp only [coerceBody]
  rcases tr body.preset with _ | p
  · exact Or.inl rfl
  · simp only []
    by_cases hc : p = "facts" ∨ p = "longform"
    · rw [if_pos hc]
      rcases hc with rfl | rfl
      · exact Or.inr (Or.inl rfl)
      · exact Or.inr (Or.inr rfl)
    · rw [if_neg hc]
      exact Or.inl rfl

lemma coerceBody_visibility_default (body : RawBody) :
    (tr body.visibility = none → (coerceBody body).visibility = "unlisted") ∧
    (∀ v, tr body.visibility = some v → v ≠ "public" → v ≠ "unlisted" → v ≠ "private" →
      (coerceBody body).visibility = "unlisted") := by
  constructor
  · intro h
    simp only [coerceBody, h]
  · intro v hv h1 h2 h3
    simp only [coerceBody, hv]
    rw [if_neg]
    rintro (rfl | rfl | rfl)
    · exact h3 rfl
    · exact h1 rfl
    · exact h2 rfl

lemma coerceBody_preset_default (body : RawBody) :
    (tr body.preset = none → (coerceBody body).preset = "news") ∧
    (∀ p, tr body.preset = some p → p ≠ "facts" → p ≠ "longform" →
      (coerceBody body).preset = "news") := by
  constructor
  · intro h
    simp only [coerceBody, h]
  · intro p hp h1 h2
    simp only [coerceBody, hp]
    rw [if_neg]
    rintro (rfl | rfl)
    · exact h1 rfl
    · exact h2 rfl

lemma coerceBody_duration_eq (body : RawBody) :
    (∀ q, jsToNum body.targetDurationSeconds = JSNum.finite q → 0 < q →
      (coerceBody body).targetDurationSeconds = q) ∧
    ((¬ ∃ q, jsToNum body.targetDurationSeconds = JSNum.finite q ∧ 0 < q) →
      (coerceBody body).targetDurationSeconds = 120) := by
  constructor
  · intro q hq hpos
    simp only [coerceBody, coerceNumber, hq]
    rw [if_pos hpos]
  · intro hne
    simp only [coerceBody, coerceNumber]
    rcases h : jsToNum body.targetDurationSeconds with q | _ | _ | _ <;> simp
    exact fun hpos => absurd ⟨q, h, hpos⟩ hne

/-- C10: coerceBody silently normalizes the three enumerated and numeric
fields instead of rejecting them: a missing or out-of-enumeration
visibility becomes unlisted, a missing or out-of-enumeration preset
becomes news, a target duration that does not convert to a finite
positive number becomes 120 (and one that does is kept), so the coerced
config always carries an in-enumeration visibility and preset and a
positive duration, and the duration, visibility and preset checks of the
schema produce no issue for any body. -/
theorem coerce_body_normalizes_fields (body : RawBody) :
    0 < (coerceBody body).targetDurationSeconds ∧
    ((coerceBody body).visibility = "public" ∨ (coerceBody body).visibility = "unlisted" ∨
      (coerceBody body).visibility = "private") ∧
    ((coerceBody body).preset = "news" ∨ (coerceBody body).preset = "facts" ∨
      (coerceBody body).preset = "longform") ∧
    (tr body.visibility = none → (coerceBody body).visibility = "unlisted") ∧
    (∀ v, tr body.visibility = some v → v ≠ "public" → v ≠ "unlisted" → v ≠ "private" →
      (coerceBody body).visibility = "unlisted") ∧
    (tr body.preset = none → (coerceBody body).preset = "news") ∧
    (∀ p, tr body.preset = some p → p ≠ "facts" → p ≠ "longform" →
      (coerceBody body).preset = "news") ∧
    (∀ q, jsToNum body.targetDurationSeconds = JSNum.finite q → 0 < q →
      (coerceBody body).targetDurationSeconds = q) ∧
    ((¬ ∃ q, jsToNum body.targetDurationSeconds = JSNum.finite q ∧ 0 < q) →
      (coerceBody body).targetDurationSeconds = 120) ∧
    durationCheck (coerceBody body) = [] ∧
    visibilityCheck (coerceBody body) = [] ∧
    presetCheck (coerceBody body) = [] := by
  refine ⟨coerceBody_duration_pos body, coerceBody_visibility_mem body,
    coerceBody_preset_mem body, (coerceBody_visibility_default body).1,
    (coerceBody_visibility_default body).2, (coerceBody_preset_default body).1,
    (coerceBody_preset_default body).2, (coerceBody_duration_eq body).1,
    (coerceBody_duration_eq body).2, ?_, ?_, ?_⟩
  · unfold durationCheck
    rw [if_pos (coerceBody_duration_pos body)]
  · unfold visibilityCheck
    rw [if_pos (coerceBody_visibility_mem body)]
  · unfold presetCheck
    rw [if_pos (coerceBody_preset_mem body)]

/-- A body with out-of-range values for the three normalized fields:
wrong visibility and preset strings and a negative duration. -/
def outOfRangeBody : RawBody :=
  { visibility := .str "secret", preset := .str "drama",
    targetDurationSeconds := .str "-5" }

/-- Witness for C10 at the out-of-range body. -/
theorem coerce_body_normalizes_fields_witness :
    0 < (coerceBody outOfRangeBody).targetDurationSeconds ∧
    (coerceBody outOfRangeBody).visibility = "unlisted" ∧
    (coerceBody outOfRangeBody).preset = "news" ∧
    (coerceBody outOfRangeBody).targetDurationSeconds = 120 ∧
    durationCheck (coerceBody outOfRangeBody) = [] ∧
    visibilityCheck (coerceBody outOfRangeBody) = [] ∧
    presetCheck (coerceBody outOfRangeBody) = [] := by
  have h := coerce_body_normalizes_fields outOfRangeBody
  refine ⟨h.1, ?_, ?_, ?_, h.2.2.2.2.2.2.2.2.2.1, h.2.2.2.2.2.2.2.2.2.2.1,
    h.2.2.2.2.2.2.2.2.2.2.2⟩
  · exact h.2.2.2.2.1 "secret" rfl (by decide) (by decide) (by decide)
  · exact h.2.2.2.2.2.2.1 "drama" rfl (by decide) (by decide)
  · refine h.2.2.2.2.2.2.2.2.1 ?_
    rintro ⟨q, hq, hpos⟩
    have h5 : JSNum.finite (-5) = JSNum.finite q := hq
    injection h5 with h5
    rw [← h5] at hpos
    norm_num at hpos

/-- An environment for the two-paths comparison: every variable set, with
the tag list given as the string with a trailing comma. -/
def tagEnv : Env :=
  { OPENAI_API_KEY := some "k", ELEVENLABS_API_KEY := some "k", PEXELS_API_KEY := some "k",
    YOUTUBE_CLIENT_ID := some "k", YOUTUBE_CLIENT_SECRET := some "k",
    YOUTUBE_REFRESH_TOKEN := some "k", PIPELINE_VOICE_ID := some "v",
    PIPELINE_DEFAULT_TOPIC := some "T", PIPELINE_TARGET_DURATION := some "120",
    PIPELINE_UPLOAD_TITLE_TEMPLATE := some "Ti", PIPELINE_UPLOAD_DESCRIPTION_TEMPLATE := some "De",
    PIPELINE_UPLOAD_TAGS := some "a,", PIPELINE_UPLOAD_VISIBILITY := some "unlisted",
    PIPELINE_ALLOW_COPY_AUDIO := some "true", PIPELINE_PRESET := some "news",
    PIPELINE_WEBHOOK_URL := some "W", PIPELINE_RUN_CONTEXT := some "R",
    PIPELINE_EXTRA_INSTRUCTIONS := some "E" }

/-- The request body equivalent to tagEnv: the same raw values for every
field, including the same tag string with a trailing comma. -/
def tagBody : RawBody :=
  { openaiKey := .str "k", elevenLabsKey := .str "k", pexelsKey := .str "k",
    youtubeClientId := .str "k", youtubeClientSecret := .str "k",
    youtubeRefreshToken := .str "k", voiceId := .str "v", videoTopic := .str "T",
    targetDurationSeconds := .str "120", uploadTitleTemplate := .str "Ti",
    uploadDescriptionTemplate := .str "De", uploadTags := .str "a,",
    visibility := .str "unlisted", allowCopyrightAudio := .bool true,
    preset := .str "news", webhookUrl := .str "W", runContext := .str "R",
    extraInstructions := .str "E" }

/-- C7 counterexample: on equivalent raw inputs (every field given the
same value, tags as the string with a trailing comma) both paths pass the
shared schema and agree on every field except uploadTags, where the env
path drops the empty trailing entry and the request path keeps it, so the
two validated RunConfigs differ. -/
theorem construction_paths_counterexample :
    deriveFromEnv tagEnv = Except.ok (envRaw tagEnv) ∧
    schemaSafeParse (coerceBody tagBody) = Except.ok (coerceBody tagBody) ∧
    ({ envRaw tagEnv with uploadTags := [] } : RawConfig) =
      { coerceBody tagBody with uploadTags := [] } ∧
    (envRaw tagEnv).uploadTags = ["a"] ∧
    (coerceBody tagBody).uploadTags = ["a", ""] ∧
    envRaw tagEnv ≠ coerceBody tagBody :=
  ⟨rfl, rfl, by decide, by decide, by decide, by decide⟩

/-- C7 amended: both construction paths do validate through the one
shared schema routine, but their pre-validation normalization is not
identical: tag-list parsing diverges on inputs with empty segments (the
env path filters empty tags out, the request path keeps them), so
equivalent raw inputs can produce different validated RunConfigs. -/
theorem construction_paths_amended :
    (∀ env, deriveFromEnv env = schemaSafeParse (envRaw env)) ∧
    (∀ uuid ts gen body cfg, schemaSafeParse (coerceBody body) = Except.ok cfg →
      POST uuid ts gen body =
        PostResult.stream (runStream uuid ts (gen cfg).events (gen cfg).outcome)) ∧
    envTagSplit "a," = ["a"] ∧
    bodyTagSplit "a," = ["a", ""] ∧
    envTagSplit "a," ≠ bodyTagSplit "a," := by
  refine ⟨fun env => rfl, ?_, by decide, by decide, by decide⟩
  intro uuid ts gen body cfg h
  simp [POST, h]

/-- Witness for the amended C7 statement at concrete inputs. -/
theorem construction_paths_amended_witness :
    deriveFromEnv tagEnv = schemaSafeParse (envRaw tagEnv) ∧
    POST "u" "t" (fun _ => Generator.mk [] GenOutcome.normal) validBody =
      PostResult.stream (runStream "u" "t" [] GenOutcome.normal) ∧
    envTagSplit "a," ≠ bodyTagSplit "a," :=
  ⟨construction_paths_amended.1 tagEnv,
    construction_paths_amended.2.1 "u" "t" (fun _ => Generator.mk [] GenOutcome.normal)
      validBody (coerceBody validBody) rfl,
    construction_paths_amended.2.2.2.2⟩
